import Mathlib

/-!
Verification development for the stored-procedure batch processor
(`css_dev_automator`).  Python strings are embedded as `List Char`; the
`re` module subset used by the sources is embedded as a small backtracking
engine (`mlist`/`finditer`/`reSub`) that reproduces CPython's leftmost,
preference-ordered backtracking semantics for the constructs the sources
use; `json.loads`/`json.dumps(·, indent=4)` are embedded for the JSON
fragment the sources exercise (objects, arrays, strings, integers,
booleans, null; non-integer numbers are outside scope since no claim needs
floats).  `time.sleep`, wall-clock timeouts and timestamps are not modelled
(real time); that is noted at each definition it touches.
-/

abbrev Str := List Char

/-- Single-quote character, written via its code point. -/
def sqC : Char := Char.ofNat 39

/-- Double-quote character, written via its code point. -/
def dqC : Char := Char.ofNat 34

/-- Backslash character, written via its code point. -/
def bsC : Char := Char.ofNat 92

/-- Python `str.lower()` (ASCII fragment). -/
def pyLower (s : Str) : Str := s.map Char.toLower

/-- Python `str.upper()` (ASCII fragment). -/
def pyUpper (s : Str) : Str := s.map Char.toUpper

/-- Whitespace characters recognised by Python's `str.strip()` / `\s` (ASCII fragment). -/
def isSpaceChar (c : Char) : Bool :=
  c = ' ' || c = '\t' || c = '\n' || c = '\x0d' || c = '\x0b' || c = '\x0c'

/-- Python `str.strip()` with no argument (ASCII fragment). -/
def pyStrip (s : Str) : Str :=
  ((s.dropWhile isSpaceChar).reverse.dropWhile isSpaceChar).reverse

/-- Substring containment: Python's `pat in hay` on strings. -/
def containsSub (hay pat : Str) : Bool :=
  match hay with
  | [] => pat.isEmpty
  | _ :: t => pat.isPrefixOf hay || containsSub t pat

/-- Python truthiness of a string: nonempty. -/
def pyTruthy (s : Str) : Bool := !s.isEmpty

/-- Decimal digits of a natural number, most significant first (fuel-indexed
so the kernel can evaluate it). -/
def natToStrAux : Nat → Nat → Str
  | 0, _ => []
  | fuel + 1, n =>
    if n < 10 then [Char.ofNat (48 + n)]
    else natToStrAux fuel (n / 10) ++ [Char.ofNat (48 + n % 10)]

/-- Python `str(n)` for a natural number. -/
def natToStr (n : Nat) : Str := natToStrAux (n + 1) n

/-- Python `str(n)` for an integer. -/
def intToStr (n : Int) : Str :=
  if n < 0 then '-' :: natToStr n.natAbs else natToStr n.natAbs

/- ## Embedding of the Python `re` subset used by the repository -/

/-- Character classes appearing in the repository's regex patterns. -/
inductive CC where
  | word
  | space
  | any
  | oneOf (cs : Str)
  | noneOf (cs : Str)
deriving Repr, DecidableEq

/-- Membership in `\w` (ASCII fragment, as in the sources' inputs). -/
def isWordChar (c : Char) : Bool :=
  (c ≥ 'a' && c ≤ 'z') || (c ≥ 'A' && c ≤ 'Z') || (c ≥ '0' && c ≤ '9') || c = '_'

/-- Flag set of a compiled pattern: `re.IGNORECASE`, `re.DOTALL`, `re.MULTILINE`. -/
structure ReFlags where
  ignorecase : Bool
  dotall : Bool
  multiline : Bool
deriving Repr, DecidableEq

def ccMatches (fl : ReFlags) (k : CC) (c : Char) : Bool :=
  match k with
  | .word => isWordChar c
  | .space => isSpaceChar c
  | .any => fl.dotall || c ≠ '\n'
  | .oneOf cs => cs.contains c
  | .noneOf cs => !cs.contains c

/-- Regex AST for the subset of Python `re` appearing in the repository:
literals, the classes above, concatenation, ordered alternation,
greedy/lazy repetition, numbered capturing groups, and `$`. -/
inductive RE where
  | eps
  | ch (c : Char)
  | cc (k : CC)
  | seq (a b : RE)
  | alt (a b : RE)
  | star (r : RE) (greedy : Bool)
  | group (n : Nat) (r : RE)
  | eol
deriving Repr, DecidableEq

/-- Literal string as a regex. -/
def RE.strLit : Str → RE
  | [] => .eps
  | [c] => .ch c
  | c :: t => .seq (.ch c) (RE.strLit t)

/-- Greedy `r+`. -/
def RE.plusG (r : RE) : RE := .seq r (.star r true)

/-- Lazy `r+?`. -/
def RE.plusL (r : RE) : RE := .seq r (.star r false)

/-- Greedy `r?`. -/
def RE.optG (r : RE) : RE := .alt r .eps

/-- Greedy `r*`. -/
def RE.starG (r : RE) : RE := .star r true

/-- Lazy `r*?`. -/
def RE.starL (r : RE) : RE := .star r false

/-- Capture list: `(group, start, stop)`; the most recent entry for a group wins,
matching CPython's last-capture semantics. -/
abbrev Caps := List (Nat × Nat × Nat)

def setCap (cs : Caps) (n a b : Nat) : Caps := (n, a, b) :: cs

def getCap (cs : Caps) (n : Nat) : Option (Nat × Nat) :=
  match cs with
  | [] => none
  | (m, a, b) :: t => if m = n then some (a, b) else getCap t n

/-- Single-character comparison under the pattern's flags. -/
def charEq (fl : ReFlags) (a b : Char) : Bool :=
  if fl.ignorecase then a.toLower = b.toLower else a = b

/-- Continuation items of the backtracking machine: a regex still to match, a
progress guard for repetition (fail unless the iteration consumed input, which
is how CPython stops empty-match repetition), and a pending capture-group
close. -/
inductive KItem where
  | re (r : RE)
  | prog (entry : Nat)
  | closeG (n : Nat) (start : Nat)

/-- One pending alternative of the backtracking machine: position, captures
(snapshotted, so backtracking restores them exactly as CPython does), and the
remaining continuation. -/
abbrev Thread := Nat × Caps × List KItem

/-- The backtracking matcher as a small-step machine, depth-first with CPython's
preference order: an alternation tries its left arm first; a greedy repetition
tries one more iteration first and stopping second, a lazy one the reverse.
The current thread runs until it fails, then the most recently pushed
alternative resumes.  Success is the first thread to exhaust its continuation —
exactly the match CPython reports.  `fuel` bounds the number of machine steps;
the wrapper passes more than any input here needs. -/
def vmRun (fl : ReFlags) (input : Str) : Nat → Thread → List Thread → Option (Nat × Caps)
  | 0, _, _ => none
  | fuel + 1, (pos, caps, konts), stack =>
    match konts with
    | [] => some (pos, caps)
    | ki :: k =>
      match ki with
      | .prog entry =>
        if pos > entry then vmRun fl input fuel (pos, caps, k) stack
        else
          match stack with
          | [] => none
          | t :: rest => vmRun fl input fuel t rest
      | .closeG n start => vmRun fl input fuel (pos, setCap caps n start pos, k) stack
      | .re r =>
        match r with
        | .eps => vmRun fl input fuel (pos, caps, k) stack
        | .ch c =>
          match input.get? pos with
          | some c' =>
            if charEq fl c c' then vmRun fl input fuel (pos + 1, caps, k) stack
            else
              match stack with
              | [] => none
              | t :: rest => vmRun fl input fuel t rest
          | none =>
            match stack with
            | [] => none
            | t :: rest => vmRun fl input fuel t rest
        | .cc cls =>
          match input.get? pos with
          | some c' =>
            if ccMatches fl cls c' then vmRun fl input fuel (pos + 1, caps, k) stack
            else
              match stack with
              | [] => none
              | t :: rest => vmRun fl input fuel t rest
          | none =>
            match stack with
            | [] => none
            | t :: rest => vmRun fl input fuel t rest
        | .seq a b => vmRun fl input fuel (pos, caps, .re a :: .re b :: k) stack
        | .alt a b =>
          vmRun fl input fuel (pos, caps, .re a :: k) ((pos, caps, .re b :: k) :: stack)
        | .star r g =>
          if g then
            vmRun fl input fuel (pos, caps, .re r :: .prog pos :: .re (.star r g) :: k)
              ((pos, caps, k) :: stack)
          else
            vmRun fl input fuel (pos, caps, k)
              ((pos, caps, .re r :: .prog pos :: .re (.star r g) :: k) :: stack)
        | .group n r => vmRun fl input fuel (pos, caps, .re r :: .closeG n pos :: k) stack
        | .eol =>
          if pos = input.length ||
              (input.get? pos = some '\n' && (fl.multiline || pos + 1 = input.length)) then
            vmRun fl input fuel (pos, caps, k) stack
          else
            match stack with
            | [] => none
            | t :: rest => vmRun fl input fuel t rest

/-- A reported match: span plus captures. -/
structure ReMatch where
  start : Nat
  stop : Nat
  caps : Caps
deriving Repr, DecidableEq

/-- Step bound handed to `vmRun`: far above what any evaluation in this
development uses. -/
def reFuel (input : Str) : Nat := 400 * (input.length + 4) * (input.length + 4)

/-- Match the pattern anchored at `pos`: the first success in backtracking
order, i.e. the match CPython reports. -/
def matchAt (fl : ReFlags) (r : RE) (input : Str) (pos : Nat) : Option ReMatch :=
  match vmRun fl input (reFuel input) (pos, [], [.re r]) [] with
  | none => none
  | some (e, cs) => some ⟨pos, e, cs⟩

/-- Scan positions left to right with explicit fuel (structural recursion so the
kernel can evaluate it). -/
def searchFromAux (fl : ReFlags) (r : RE) (input : Str) : Nat → Nat → Option ReMatch
  | 0, _ => none
  | fuel + 1, start =>
    if start > input.length then none
    else
      match matchAt fl r input start with
      | some m => some m
      | none => searchFromAux fl r input fuel (start + 1)

/-- Python `re.search` restricted to positions at or after `start`. -/
def searchFrom (fl : ReFlags) (r : RE) (input : Str) (start : Nat) : Option ReMatch :=
  searchFromAux fl r input (input.length + 1 - start) start

/-- Python `re.match`: anchored at position 0. -/
def reMatchTop (fl : ReFlags) (r : RE) (input : Str) : Option ReMatch :=
  matchAt fl r input 0

def finditerAux (fl : ReFlags) (r : RE) (input : Str) : Nat → Nat → List ReMatch
  | 0, _ => []
  | fuel + 1, start =>
    match searchFrom fl r input start with
    | none => []
    | some m =>
      m :: finditerAux fl r input fuel (if m.stop > m.start then m.stop else m.stop + 1)

/-- Python `re.finditer`: non-overlapping matches, scanning left to right,
resuming after each match (advancing by one on an empty match). -/
def finditer (fl : ReFlags) (r : RE) (input : Str) : List ReMatch :=
  finditerAux fl r input (input.length + 1) 0

/-- Text of capture group `n` (`match.group(n)`); `none` when the group did not
participate in the match. -/
def groupText (input : Str) (m : ReMatch) (n : Nat) : Option Str :=
  match getCap m.caps n with
  | none => none
  | some (a, b) => some ((input.drop a).take (b - a))

/-- Python slice `input[a:b]` for `0 ≤ a ≤ b`. -/
def sliceStr (input : Str) (a b : Nat) : Str := (input.drop a).take (b - a)

def reSubAux (fl : ReFlags) (r : RE) (repl : ReMatch → Str) (input : Str) :
    Nat → Nat → Nat → Str
  | 0, pos, _ => input.drop pos
  | _ + 1, pos, 0 => input.drop pos
  | fuel + 1, pos, cnt + 1 =>
    match searchFrom fl r input pos with
    | none => input.drop pos
    | some m =>
      sliceStr input pos m.start ++ repl m ++
        reSubAux fl r repl input fuel (if m.stop > m.start then m.stop else m.stop + 1) cnt

/-- Python `re.sub(pattern, repl, input, count)`; `repl` builds the replacement
text from the match (covering both literal replacements and group references). -/
def reSub (fl : ReFlags) (r : RE) (repl : ReMatch → Str) (input : Str) (count : Nat) : Str :=
  reSubAux fl r repl input (input.length + 1) 0 count

/- ## Embedding of the `json` module fragment used by the repository -/

/-- JSON values as produced by `json.loads` on the fragment the repository
manipulates.  Numbers are integers: no claim involves non-integer literals,
and floating point is outside the embedding's scope. -/
inductive JVal where
  | jnull
  | jbool (b : Bool)
  | jint (n : Int)
  | jstr (s : Str)
  | jarr (xs : List JVal)
  | jobj (fs : List (Str × JVal))

/-- JSON structural whitespace accepted by `json.loads`. -/
def jsonWsChar (c : Char) : Bool := c = ' ' || c = '\t' || c = '\n' || c = '\x0d'

def jsonSkipWs (s : Str) : Str := s.dropWhile jsonWsChar

/-- Unescape a single JSON string escape character; `\uXXXX` is outside the
fragment used by the sources (no claim exercises it) and yields `none`. -/
def jsonUnescape (c : Char) : Option Char :=
  if c = dqC then some dqC
  else if c = bsC then some bsC
  else if c = '/' then some '/'
  else if c = 'b' then some '\x08'
  else if c = 'f' then some '\x0c'
  else if c = 'n' then some '\n'
  else if c = 'r' then some '\x0d'
  else if c = 't' then some '\t'
  else none

def jsonParseStringAux : Nat → Str → Str → Option (Str × Str)
  | 0, _, _ => none
  | fuel + 1, acc, s =>
    match s with
    | [] => none
    | c :: rest =>
      if c = dqC then some (acc.reverse, rest)
      else if c = bsC then
        match rest with
        | [] => none
        | e :: rest' =>
          match jsonUnescape e with
          | some c' => jsonParseStringAux fuel (c' :: acc) rest'
          | none => none
      else if c.toNat < 32 then none
      else jsonParseStringAux fuel (c :: acc) rest

/-- Parse a JSON string body (after the opening quote). -/
def jsonParseString (s : Str) : Option (Str × Str) :=
  jsonParseStringAux (s.length + 1) [] s

def digitsToNat (ds : Str) : Nat :=
  ds.foldl (fun a c => a * 10 + (c.toNat - 48)) 0

/-- Parse a JSON number token.  Integer literals only: a following `.`/`e`/`E`
(a float) makes the whole parse fail, which is outside the repository fragment
any claim touches. -/
def jsonParseInt (s : Str) : Option (Int × Str) :=
  let (neg, s1) : Bool × Str :=
    match s with
    | c :: t => if c = '-' then (true, t) else (false, s)
    | [] => (false, s)
  let ds := s1.takeWhile Char.isDigit
  let rest := s1.dropWhile Char.isDigit
  if ds.isEmpty then none
  else if ds.length > 1 && ds.head? = some '0' then none
  else
    match rest with
    | c :: _ =>
      if c = '.' || c = 'e' || c = 'E' then none
      else some (if neg then -(digitsToNat ds : Int) else (digitsToNat ds : Int), rest)
    | [] => some (if neg then -(digitsToNat ds : Int) else (digitsToNat ds : Int), rest)

/-- Insert into a Python dict: a duplicate key keeps its original position and
takes the latest value. -/
def pyInsert (fs : List (Str × JVal)) (k : Str) (v : JVal) : List (Str × JVal) :=
  match fs with
  | [] => [(k, v)]
  | (k', v') :: t => if k' = k then (k', v) :: t else (k', v') :: pyInsert t k v

mutual

/-- Parse one JSON value from the front of `s` (fuel-indexed recursive descent
mirroring `json.loads`). -/
def jsonParseVal : Nat → Str → Option (JVal × Str)
  | 0, _ => none
  | fuel + 1, s =>
    let s := jsonSkipWs s
    match s with
    | [] => none
    | c :: rest =>
      if c = Char.ofNat 123 then
        let r := jsonSkipWs rest
        match r with
        | c' :: r' =>
          if c' = Char.ofNat 125 then some (.jobj [], r')
          else jsonParseMembers fuel r []
        | [] => none
      else if c = '[' then
        let r := jsonSkipWs rest
        match r with
        | c' :: r' =>
          if c' = ']' then some (.jarr [], r')
          else jsonParseElems fuel r []
        | [] => none
      else if c = dqC then
        match jsonParseString rest with
        | some (str, r) => some (.jstr str, r)
        | none => none
      else if "true".data.isPrefixOf s then some (.jbool true, s.drop 4)
      else if "false".data.isPrefixOf s then some (.jbool false, s.drop 5)
      else if "null".data.isPrefixOf s then some (.jnull, s.drop 4)
      else
        match jsonParseInt s with
        | some (n, r) => some (.jint n, r)
        | none => none

/-- Parse `key : value (, key : value)* closing-brace` object members. -/
def jsonParseMembers : Nat → Str → List (Str × JVal) → Option (JVal × Str)
  | 0, _, _ => none
  | fuel + 1, s, acc =>
    let s := jsonSkipWs s
    match s with
    | c :: rest =>
      if c = dqC then
        match jsonParseString rest with
        | some (k, r1) =>
          let r2 := jsonSkipWs r1
          match r2 with
          | ':' :: r3 =>
            match jsonParseVal fuel r3 with
            | some (v, r4) =>
              let r5 := jsonSkipWs r4
              match r5 with
              | ',' :: r6 => jsonParseMembers fuel r6 (pyInsert acc k v)
              | c' :: r6 =>
                if c' = Char.ofNat 125 then some (.jobj (pyInsert acc k v), r6) else none
              | [] => none
            | none => none
          | _ => none
        | none => none
      else none
    | [] => none

/-- Parse `value (, value)* closing-bracket` array elements. -/
def jsonParseElems : Nat → Str → List JVal → Option (JVal × Str)
  | 0, _, _ => none
  | fuel + 1, s, acc =>
    match jsonParseVal fuel s with
    | some (v, r) =>
      let r1 := jsonSkipWs r
      match r1 with
      | ',' :: r2 => jsonParseElems fuel r2 (acc ++ [v])
      | ']' :: r2 => some (.jarr (acc ++ [v]), r2)
      | _ => none
    | none => none

end

/-- Python `json.loads`: parse, then require only trailing whitespace. -/
def jloads (s : Str) : Option JVal :=
  match jsonParseVal (4 * s.length + 16) s with
  | some (v, rest) => if jsonSkipWs rest = [] then some v else none
  | none => none

def hexDigit (n : Nat) : Char :=
  if n < 10 then Char.ofNat (48 + n) else Char.ofNat (87 + n)

/-- Escape one character as `json.dumps` does (`ensure_ascii=True` default). -/
def jsonEscapeChar (c : Char) : Str :=
  if c = dqC then [bsC, dqC]
  else if c = bsC then [bsC, bsC]
  else if c = '\n' then [bsC, 'n']
  else if c = '\t' then [bsC, 't']
  else if c = '\x0d' then [bsC, 'r']
  else if c = '\x08' then [bsC, 'b']
  else if c = '\x0c' then [bsC, 'f']
  else if c.toNat < 32 || c.toNat > 126 then
    let n := c.toNat
    [bsC, 'u', hexDigit (n / 4096 % 16), hexDigit (n / 256 % 16),
     hexDigit (n / 16 % 16), hexDigit (n % 16)]
  else [c]

def jsonDumpStr (s : Str) : Str := dqC :: s.flatMap jsonEscapeChar ++ [dqC]

def jsonPad (lvl : Nat) : Str := List.replicate (4 * lvl) ' '

/-- Python `json.dumps(v, indent=4)` at nesting level `lvl` (fuel-indexed so the
kernel can evaluate it; with `indent` set the item separator is `",\n"` and the
key separator `": "`). -/
def jdumpAux : Nat → Nat → JVal → Str
  | 0, _, _ => []
  | fuel + 1, lvl, v =>
    match v with
    | .jnull => "null".data
    | .jbool true => "true".data
    | .jbool false => "false".data
    | .jint n => intToStr n
    | .jstr s => jsonDumpStr s
    | .jarr [] => "[]".data
    | .jarr xs =>
      '[' :: '\n' ::
        (List.intercalate [',', '\n']
          (xs.map (fun x => jsonPad (lvl + 1) ++ jdumpAux fuel (lvl + 1) x))) ++
        '\n' :: jsonPad lvl ++ "]".data
    | .jobj [] => [Char.ofNat 123, Char.ofNat 125]
    | .jobj fs =>
      Char.ofNat 123 :: '\n' ::
        (List.intercalate [',', '\n']
          (fs.map (fun f =>
            jsonPad (lvl + 1) ++ jsonDumpStr f.1 ++ ':' :: ' ' :: jdumpAux fuel (lvl + 1) f.2))) ++
        '\n' :: jsonPad lvl ++ [Char.ofNat 125]

/-- Python `json.dumps(v, indent=4)`.  The depth fuel of 1000 is exact for any
value nested less than 1000 deep, far beyond every value this development
evaluates (CPython itself refuses to parse inputs nested 1000 deep). -/
def jdumps (v : JVal) : Str := jdumpAux 1000 0 v

/- ## Embedding of `src/sp_executor.py` -/

/-- Flags of the signature-analysis pattern: `re.IGNORECASE | re.MULTILINE`. -/
def flSig : ReFlags := ⟨true, false, true⟩

/-- No flags. -/
def flNone : ReFlags := ⟨false, false, false⟩

/-- Flags of the JSON-extraction patterns: `re.DOTALL | re.IGNORECASE`. -/
def flJson : ReFlags := ⟨true, true, false⟩

/-- Flags `re.IGNORECASE` alone. -/
def flIC : ReFlags := ⟨true, false, false⟩

/-- Class `[^)]`. -/
def ccNotParen : CC := .noneOf [')']

/-- Class `[^,\n]`. -/
def ccNotCommaNL : CC := .noneOf [',', '\n']

/-- Fragment `(?:\s+(?:IDENTITY|NOT\s+NULL|NULL))*` of the parameter pattern. -/
def sql_type_suffix : RE :=
  .starG (.seq (.plusG (.cc .space))
    (.alt (.strLit "IDENTITY".data)
      (.alt (.seq (.strLit "NOT".data) (.seq (.plusG (.cc .space)) (.strLit "NULL".data)))
        (.strLit "NULL".data))))

/-- Fragment `\w+(?:\s*\([^)]+\))?(?:\s+(?:IDENTITY|NOT\s+NULL|NULL))*`. -/
def sql_type_atom : RE :=
  .seq (.plusG (.cc .word))
    (.seq (.optG (.seq (.starG (.cc .space))
        (.seq (.ch '(') (.seq (.plusG (.cc ccNotParen)) (.ch ')')))))
      sql_type_suffix)

/-- The parameter pattern of `_analyze_sp_signature` (sp_executor.py line 120):
`@(\w+)\s+((?:\w+(?:\s*\([^)]+\))?(?:\s+(?:IDENTITY|NOT\s+NULL|NULL))*)+)\s*(?:=\s*([^,\n]+?))?\s*(?:,|\s+|$|OUTPUT)`. -/
def param_pattern : RE :=
  .seq (.ch '@')
    (.seq (.group 1 (.plusG (.cc .word)))
      (.seq (.plusG (.cc .space))
        (.seq (.group 2 (.plusG sql_type_atom))
          (.seq (.starG (.cc .space))
            (.seq (.optG (.seq (.ch '=')
                (.seq (.starG (.cc .space)) (.group 3 (.plusL (.cc ccNotCommaNL))))))
              (.seq (.starG (.cc .space))
                (.alt (.ch ',')
                  (.alt (.plusG (.cc .space)) (.alt .eol (.strLit "OUTPUT".data))))))))))

/-- The return-value pattern of `_analyze_sp_signature` (line 155): `EXEC\s+@\w+\s*=`. -/
def return_value_pattern : RE :=
  .seq (.strLit "EXEC".data)
    (.seq (.plusG (.cc .space))
      (.seq (.ch '@') (.seq (.plusG (.cc .word)) (.seq (.starG (.cc .space)) (.ch '=')))))

/-- The `size` slot of a parsed SQL type: `"MAX"`, a parsed integer, or the raw
text when `int()` fails (sp_executor.py lines 188-194). -/
inductive SqlSize where
  | maxSize
  | numSize (n : Int)
  | txtSize (s : Str)
deriving Repr, DecidableEq

/-- Python `int(s)` on a decimal string (ASCII fragment): strip, optional sign,
nonempty digit run. -/
def pyParseInt (s : Str) : Option Int :=
  let t := pyStrip s
  match t with
  | '-' :: ds =>
    if ds ≠ [] && ds.all Char.isDigit then some (-(digitsToNat ds : Int)) else none
  | '+' :: ds =>
    if ds ≠ [] && ds.all Char.isDigit then some (digitsToNat ds : Int) else none
  | ds =>
    if ds ≠ [] && ds.all Char.isDigit then some (digitsToNat ds : Int) else none

/-- Result dictionary of `_parse_parameter_type`. -/
structure TypeInfo where
  base_type : Str
  size : Option SqlSize
  precision : Option Int
  scale : Option Int
  nullable : Bool
deriving Repr, DecidableEq

/-- `_parse_parameter_type` (sp_executor.py lines 160-200).  `Except` models the
uncaught `ValueError` that `int(parts[i].strip())` raises on a malformed
precision/scale part. -/
def parse_parameter_type (type_string : Str) : Except Unit TypeInfo :=
  let type_upper := pyUpper type_string
  let base_type :=
    match reMatchTop flNone (RE.group 1 (RE.plusG (RE.cc .word))) type_upper with
    | some m => (groupText type_upper m 1).getD "NVARCHAR".data
    | none => "NVARCHAR".data
  let nullable := !containsSub type_upper "NOT NULL".data
  match searchFrom flNone
      (RE.seq (RE.ch '(') (RE.seq (RE.group 1 (RE.plusG (RE.cc ccNotParen))) (RE.ch ')')))
      type_upper 0 with
  | none =>
    .ok { base_type, size := none, precision := none, scale := none, nullable }
  | some m =>
    let size_part := (groupText type_upper m 1).getD []
    if containsSub size_part [','] then
      let parts := size_part.splitOn ','
      match parts with
      | p0 :: p1 :: _ =>
        match pyParseInt p0, pyParseInt p1 with
        | some prec, some sc =>
          .ok { base_type, size := none, precision := some prec, scale := some sc, nullable }
        | _, _ => .error ()
      | _ => .error ()
    else if pyUpper size_part = "MAX".data then
      .ok { base_type, size := some .maxSize, precision := none, scale := none, nullable }
    else
      match pyParseInt size_part with
      | some n =>
        .ok { base_type, size := some (.numSize n), precision := none, scale := none, nullable }
      | none =>
        .ok { base_type, size := some (.txtSize size_part), precision := none, scale := none,
              nullable }

/-- One entry of the analyzer's parameter dictionaries. -/
structure ParamInfo where
  name : Str
  type : Str
  full_type : Str
  size : Option SqlSize
  precision : Option Int
  scale : Option Int
  nullable : Bool
  default : Option Str
  is_output : Bool
deriving Repr, DecidableEq

/-- The analyzer's result dictionary (`_analyze_sp_signature`). -/
structure SpSignature where
  has_output_params : Bool
  output_params : List ParamInfo
  input_params : List ParamInfo
  has_return_value : Bool
deriving Repr, DecidableEq

/-- Loop body of `_analyze_sp_signature` (lines 123-152) for one regex match. -/
def analyze_param_step (sp_definition : Str) (sig : SpSignature) (m : ReMatch) :
    Except Unit SpSignature :=
  let param_name := (groupText sp_definition m 1).getD []
  let param_type_full := pyStrip ((groupText sp_definition m 2).getD [])
  let default_value := groupText sp_definition m 3
  let next_part := sliceStr sp_definition m.stop (m.stop + 20)
  let is_output := containsSub (pyUpper next_part) "OUTPUT".data
  match parse_parameter_type param_type_full with
  | .error e => .error e
  | .ok ti =>
    let p : ParamInfo :=
      { name := param_name, type := ti.base_type, full_type := param_type_full,
        size := ti.size, precision := ti.precision, scale := ti.scale,
        nullable := ti.nullable, default := default_value, is_output }
    if is_output then
      .ok { sig with has_output_params := true, output_params := sig.output_params ++ [p] }
    else
      .ok { sig with input_params := sig.input_params ++ [p] }

/-- `_analyze_sp_signature` (sp_executor.py lines 107-158). -/
def analyze_sp_signature (sp_definition : Str) : Except Unit SpSignature :=
  let sig0 : SpSignature := ⟨false, [], [], false⟩
  if !pyTruthy sp_definition then .ok sig0
  else
    match (finditer flSig param_pattern sp_definition).foldlM
        (analyze_param_step sp_definition) sig0 with
    | .error e => .error e
    | .ok sig =>
      .ok { sig with
        has_return_value := (searchFrom flIC return_value_pattern sp_definition 0).isSome }

/-- One reported result set: the single-key dictionary
`\x7bf"ResultSet_\x7bn\x7d": results\x7d` of `_process_all_result_sets`. -/
structure RsEntry (α : Type) where
  key : Str
  rows : List (List (Str × α))
deriving Repr, DecidableEq

/-- The execution envelope (`_create_success_response` / `_create_error_response`).
`Option` distinguishes present from absent keys: a success envelope carries no
`ErrorMessage`/`ErrorCategory` key.  `Timestamp` is wall-clock time and is not
modelled. -/
structure Envelope (α : Type) where
  executionStatus : Str
  resultSets : List (RsEntry α)
  outputParameters : Option (List (Str × α))
  errorMessage : Option Str
  errorCategory : Option Str
deriving Repr, DecidableEq

/-- `_create_success_response` (lines 414-424). -/
def create_success_response (rs : List (RsEntry α)) (op : Option (List (Str × α))) :
    Envelope α :=
  ⟨"Success".data, rs, op, none, none⟩

/-- `_create_error_response` (lines 426-436); callers omitting the category pass
`"UNKNOWN"` explicitly here. -/
def create_error_response (msg cat : Str) : Envelope α :=
  ⟨"Error".data, [], none, some msg, some cat⟩

/-- Python-dict insertion for row dictionaries: duplicate key keeps its position,
takes the latest value. -/
def pyInsertV {α : Type} (fs : List (Str × α)) (k : Str) (v : α) : List (Str × α) :=
  match fs with
  | [] => [(k, v)]
  | (k', v') :: t => if k' = k then (k', v) :: t else (k', v') :: pyInsertV t k v

/-- `dict(zip(columns, row, strict=False))` (line 301). -/
def dictOfZip {α : Type} (cols : List Str) (row : List α) : List (Str × α) :=
  (List.zip cols row).foldl (fun d kv => pyInsertV d kv.1 kv.2) []

/-- `_process_all_result_sets` (lines 288-321).  Each list entry models one
result set the driver delivers before `nextset()` returns false (or raises):
`none` when `cursor.description` is `None` (no columns — skipped without
incrementing the counter), otherwise the column names and raw rows.  `tryParse`
models the per-value transformation of lines 303-306 (`_try_parse_json` guarded
by the string checks), which is orthogonal to the result-set structure. -/
def process_all_result_sets {α : Type} (tryParse : α → α) :
    List (Option (List Str × List (List α))) → Nat → List (RsEntry α)
  | [], _ => []
  | none :: rest, n => process_all_result_sets tryParse rest n
  | some (cols, rows) :: rest, n =>
    let results := rows.map (fun row => (dictOfZip cols row).map (fun kv => (kv.1, tryParse kv.2)))
    ⟨"ResultSet_".data ++ natToStr n, results⟩ :: process_all_result_sets tryParse rest (n + 1)

/-- Result assembly of `_execute_with_output_params` (sp_executor.py lines
242-256): collect all result sets, then take the output-parameter row from the
last result set if the `"ResultSet_" in last_result` dictionary test succeeds,
and report all but the last result set. -/
def execute_with_output_params_result {α : Type} (tryParse : α → α)
    (sets : List (Option (List Str × List (List α)))) : Envelope α :=
  let all_results := process_all_result_sets tryParse sets 0
  let output_params : Option (List (Str × α)) :=
    match all_results.getLast? with
    | none => none
    | some last =>
      if last.key = "ResultSet_".data then
        match last.rows with
        | r :: _ => some r
        | [] => none
      else none
  create_success_response (if all_results.length > 1 then all_results.dropLast else [])
    output_params

/-- `_categorize_pyodbc_error` (lines 455-468), as a function of `str(error)`. -/
def categorize_pyodbc_error (msg : Str) : Str :=
  let e := pyLower msg
  if containsSub e "timeout".data || containsSub e "query timeout".data then "TIMEOUT".data
  else if containsSub e "permission denied".data || containsSub e "access denied".data then
    "PERMISSION".data
  else if containsSub e "syntax error".data || containsSub e "invalid syntax".data then
    "SYNTAX".data
  else if containsSub e "connection".data || containsSub e "network".data then
    "CONNECTION".data
  else "DATABASE_ERROR".data

/-- `_categorize_error` (lines 438-453), as a function of whether the exception
is a `pyodbc.Error` and of `str(error)`. -/
def categorize_error (isPyodbc : Bool) (msg : Str) : Str :=
  let e := pyLower msg
  if isPyodbc then categorize_pyodbc_error msg
  else if containsSub e "timeout".data || containsSub e "timed out".data then "TIMEOUT".data
  else if containsSub e "connection".data || containsSub e "network".data then
    "CONNECTION".data
  else if containsSub e "permission".data || containsSub e "access denied".data then
    "PERMISSION".data
  else if containsSub e "syntax".data || containsSub e "invalid".data then "SYNTAX".data
  else "UNKNOWN".data

/-- The exceptions the retry loop of `execute_stored_procedure` distinguishes:
the four typed `SPExecutionError` subclasses, or any other exception
characterised by whether it is a `pyodbc.Error` and by `str(error)`. -/
inductive SpExc where
  | connE (msg : Str)
  | timeoutE (msg : Str)
  | permE (msg : Str)
  | synE (msg : Str)
  | otherE (isPyodbc : Bool) (msg : Str)
deriving Repr, DecidableEq

/-- Outcome of one try-block body (signature analysis plus strategy execution,
lines 66-73): either the envelope the strategy returned, or a raised exception. -/
inductive AttemptOutcome (α : Type) where
  | ret (env : Envelope α)
  | raise (e : SpExc)

/-- The membership test `error_category in ["TIMEOUT", "CONNECTION"]` (line 95). -/
def retryable_category (cat : Str) : Bool :=
  cat = "TIMEOUT".data || cat = "CONNECTION".data

/-- The retry loop of `execute_stored_procedure` (sp_executor.py lines 64-105),
as a function of the per-attempt outcome `behavior`.  Returns the envelope and
the number of attempts consumed; `time.sleep` backoff is real time and is not
modelled.  The second argument counts the loop iterations remaining, so the
post-loop fallthrough (line 105) is the `0` case. -/
def execute_attempts {α : Type} (maxRetries : Nat) (behavior : Nat → AttemptOutcome α) :
    Nat → Nat → Envelope α × Nat
  | _, 0 => (create_error_response "Maximum retries exceeded".data "MAX_RETRIES_EXCEEDED".data, 0)
  | attempt, remaining + 1 =>
    match behavior attempt with
    | .ret env => (env, 1)
    | .raise (.connE msg) =>
      if attempt < maxRetries - 1 then
        let r := execute_attempts maxRetries behavior (attempt + 1) remaining
        (r.1, r.2 + 1)
      else
        (create_error_response ("Execution failed after retries: ".data ++ msg)
          "RETRYABLE_ERROR".data, 1)
    | .raise (.timeoutE msg) =>
      if attempt < maxRetries - 1 then
        let r := execute_attempts maxRetries behavior (attempt + 1) remaining
        (r.1, r.2 + 1)
      else
        (create_error_response ("Execution failed after retries: ".data ++ msg)
          "RETRYABLE_ERROR".data, 1)
    | .raise (.permE msg) => (create_error_response msg "PERMANENT_ERROR".data, 1)
    | .raise (.synE msg) => (create_error_response msg "PERMANENT_ERROR".data, 1)
    | .raise (.otherE isPy msg) =>
      let cat := categorize_error isPy msg
      if retryable_category cat && attempt < maxRetries - 1 then
        let r := execute_attempts maxRetries behavior (attempt + 1) remaining
        (r.1, r.2 + 1)
      else (create_error_response msg cat, 1)

/-- `execute_stored_procedure` (lines 52-105) with `max_retries = 3`:
the envelope returned and the number of attempts made.  The input-JSON
defaulting of lines 56-58 precedes the loop and does not affect its control
flow; the per-attempt behavior abstracts the try-block body for the fixed
name/input/definition. -/
def execute_stored_procedure {α : Type} (behavior : Nat → AttemptOutcome α) :
    Envelope α × Nat :=
  execute_attempts 3 behavior 0 3

/- ## Embedding of `src/database_manager.py` -/

/-- Left brace character, written via its code point. -/
def lbC : Char := Char.ofNat 123

/-- Right brace character, written via its code point. -/
def rbC : Char := Char.ofNat 125

/-- Split on `;` not preceded by a backslash: `re.split(r"(?<!\\);", s)`
(database_manager.py line 28).  The accumulator holds the current part
reversed, so its head is the preceding character. -/
def splitUnescapedAux : Str → Str → List Str
  | [], acc => [acc.reverse]
  | c :: t, acc =>
    if c = ';' && acc.head? ≠ some bsC then acc.reverse :: splitUnescapedAux t []
    else splitUnescapedAux t (c :: acc)

def splitUnescapedSemis (s : Str) : List Str := splitUnescapedAux s []

/-- Quote removal of `parse_dotnet_connection_string` (lines 37-41). -/
def stripQuotes (v : Str) : Str :=
  if v.head? = some dqC && v.getLast? = some dqC then (v.drop 1).dropLast
  else if v.head? = some sqC && v.getLast? = some sqC then (v.drop 1).dropLast
  else v

/-- `ConnectionStringParser.parse_dotnet_connection_string` (lines 22-45), as an
insertion-ordered dictionary. -/
def parse_dotnet_connection_string (connection_string : Str) : List (Str × Str) :=
  (splitUnescapedSemis connection_string).foldl (fun comps part =>
    let part := pyStrip part
    if containsSub part "=".data then
      let key := pyLower (pyStrip (part.takeWhile (· ≠ '=')))
      let value := pyStrip ((part.dropWhile (· ≠ '=')).drop 1)
      pyInsertV comps key (stripQuotes value)
    else comps) []

/-- The `.NET key → ODBC key` mapping table (lines 53-68). -/
def odbcKeyMap (k : Str) : Option Str :=
  if k = "data source".data || k = "server".data then some "SERVER".data
  else if k = "initial catalog".data || k = "database".data then some "DATABASE".data
  else if k = "user id".data || k = "uid".data || k = "user".data then some "UID".data
  else if k = "password".data || k = "pwd".data then some "PWD".data
  else if k = "integrated security".data then some "Trusted_Connection".data
  else if k = "connection timeout".data then some "Connection Timeout".data
  else if k = "command timeout".data then some "Command Timeout".data
  else if k = "trustservercertificate".data then some "TrustServerCertificate".data
  else if k = "encrypt".data then some "Encrypt".data
  else none

/-- The fixed first ODBC part (line 70). -/
def odbcDriverPart : Str := "DRIVER=\x7bODBC Driver 17 for SQL Server\x7d".data

/-- Loop body of `convert_to_odbc_format` (lines 72-82) for one component. -/
def odbc_fold_step (parts : List Str) (kv : Str × Str) : List Str :=
  match odbcKeyMap (pyLower kv.1) with
  | none => parts
  | some odbc_key =>
    if odbc_key = "Trusted_Connection".data &&
        (pyLower kv.2 = "true".data || pyLower kv.2 = "yes".data ||
         pyLower kv.2 = "sspi".data) then
      parts ++ ["Trusted_Connection=yes".data]
    else if odbc_key = "TrustServerCertificate".data && pyLower kv.2 = "true".data then
      parts ++ ["TrustServerCertificate=yes".data]
    else if odbc_key = "Encrypt".data && pyLower kv.2 = "true".data then
      parts ++ ["Encrypt=yes".data]
    else parts ++ [odbc_key ++ "=".data ++ kv.2]

/-- `ConnectionStringParser.convert_to_odbc_format` (lines 47-84): fold the
parsed components over the mapping step, join with `;`, and append a final `;`. -/
def convert_to_odbc_format (dotnet_connection_string : Str) : Str :=
  (List.intercalate ";".data
    ((parse_dotnet_connection_string dotnet_connection_string).foldl odbc_fold_step
      [odbcDriverPart])) ++ ";".data

/-- `DatabaseManager._prepare_connection_string` (lines 201-216) as a function
of `config.connection_string`.  Its `except` clause cannot fire: nothing in the
conversion raises. -/
def prepare_connection_string (connection_string : Str) : Str :=
  if containsSub (pyUpper connection_string) "DRIVER=".data then connection_string
  else convert_to_odbc_format connection_string

/-- State of `ConnectionPool`: the `_created_connections` counter (a Python int,
hence `Int`), the number of connections sitting in `_pool`, and two ghost
counters instrumenting the model — `openedTotal` counts successful
`pyodbc.connect` calls, `closedTotal` successful `close()` calls on open
connections. -/
structure PoolState where
  created : Int
  pooled : Nat
  openedTotal : Int
  closedTotal : Int
deriving Repr, DecidableEq

/-- How `_create_connection` can fail: the explicit pool-exhausted `Exception`
(line 111), or `pyodbc.connect` itself raising — after the counter was already
incremented. -/
inductive CreateFail where
  | exhausted
  | connectFailed
deriving Repr, DecidableEq

/-- `ConnectionPool._create_connection` (lines 107-116), with `cap` the
`pool_size + max_overflow` ceiling and `connectOk` whether `pyodbc.connect`
succeeds. -/
def create_connection (cap : Nat) (connectOk : Bool) (s : PoolState) :
    PoolState × Option CreateFail :=
  if s.created ≥ (cap : Int) then (s, some .exhausted)
  else if connectOk then
    ({ s with created := s.created + 1, openedTotal := s.openedTotal + 1 }, none)
  else ({ s with created := s.created + 1 }, some .connectFailed)

/-- Environment of one `get_connection` call: whether `pyodbc.connect` succeeds
on the first/replacement create, whether the validity probes succeed on a live
connection, and whether the caller's block raises. -/
structure GetEnv where
  createOk1 : Bool
  validInitial : Bool
  createOk2 : Bool
  bodyRaises : Bool
  validAtRelease : Bool
deriving Repr, DecidableEq

/-- The `finally` block of `get_connection` (lines 146-168) with `conn` present.
A closed connection deterministically fails `_is_connection_valid` (its probe
raises, lines 170-179), and the subsequent `conn.close()` on it raises, landing
in the bare `except` that decrements; an open connection is returned to the
pool when valid and the queue has room, else closed and decremented. -/
def finally_block (cap : Nat) (connOpen : Bool) (validAtRelease : Bool) (s : PoolState) :
    PoolState :=
  if !connOpen then { s with created := s.created - 1 }
  else if validAtRelease then
    if s.pooled < cap then { s with pooled := s.pooled + 1 }
    else { s with created := s.created - 1, closedTotal := s.closedTotal + 1 }
  else { s with created := s.created - 1, closedTotal := s.closedTotal + 1 }

/-- Phase of `get_connection` from `yield conn` on (lines 135-168), with an open
connection in hand.  On a caller exception the handler closes the connection
and decrements (lines 137-145), then the `finally` block sees the now-closed
connection and decrements again.  Returns the pool state and whether the call
re-raised. -/
def get_connection_yield (cap : Nat) (e : GetEnv) (s : PoolState) : PoolState × Bool :=
  if e.bodyRaises then
    let s1 := { s with created := s.created - 1, closedTotal := s.closedTotal + 1 }
    (finally_block cap false e.validAtRelease s1, true)
  else (finally_block cap true e.validAtRelease s, false)

/-- Phase of `get_connection` from the validity probe on (lines 131-133).  When
the probe fails the old connection is closed (without decrement, line 132) and
a replacement is created; if that create raises, the `except` block still holds
the old closed connection (the assignment never happened), so it decrements,
and the `finally` block decrements once more. -/
def get_connection_probe (cap : Nat) (e : GetEnv) (s : PoolState) : PoolState × Bool :=
  if e.validInitial then get_connection_yield cap e s
  else
    let s2 := { s with closedTotal := s.closedTotal + 1 }
    match create_connection cap e.createOk2 s2 with
    | (s3, some _) =>
      let s4 := { s3 with created := s3.created - 1 }
      (finally_block cap false e.validAtRelease s4, true)
    | (s3, none) => get_connection_yield cap e s3

/-- `ConnectionPool.get_connection` (lines 118-168).  Acquisition first tries
the queue (`pooled > 0`), else creates; a create failure there propagates with
`conn = None`, so neither the handler nor the `finally` block touches the
counter. -/
def get_connection (cap : Nat) (e : GetEnv) (s : PoolState) : PoolState × Bool :=
  if 0 < s.pooled then
    get_connection_probe cap e { s with pooled := s.pooled - 1 }
  else
    match create_connection cap e.createOk1 s with
    | (s1, some _) => (s1, true)
    | (s1, none) => get_connection_probe cap e s1

/-- One observable interaction with the pool: a bare `_create_connection` call,
one constructor pre-population iteration (create then `put`, lines 99-105), or
a full `get_connection` scope. -/
inductive PoolStep where
  | create (connectOk : Bool)
  | prepopulate (connectOk : Bool)
  | get (e : GetEnv)

def pool_step (cap : Nat) (s : PoolState) : PoolStep → PoolState
  | .create ok => (create_connection cap ok s).1
  | .prepopulate ok =>
    match create_connection cap ok s with
    | (s1, none) => { s1 with pooled := s1.pooled + 1 }
    | (s1, some _) => s1
  | .get e => (get_connection cap e s).1

/-- Any interleaving of pool interactions, as seen by the mutex-guarded counter. -/
def pool_run (cap : Nat) (steps : List PoolStep) (s : PoolState) : PoolState :=
  steps.foldl (pool_step cap) s

/-- The freshly constructed pool state, before pre-population. -/
def pool_init : PoolState := ⟨0, 0, 0, 0⟩

/-- `DatabaseManager._validate_sp_name` (lines 267-285). -/
def validate_sp_name (sp_name : Str) : Bool :=
  if sp_name.isEmpty || (pyStrip sp_name).isEmpty then false
  else
    let sp_lower := pyLower sp_name
    if containsSub sp_lower ";".data || containsSub sp_lower "--".data ||
        containsSub sp_lower "/*".data || containsSub sp_lower "*/".data then false
    else if containsSub sp_lower "xp_".data && !("[dbo].[xp_".data.isPrefixOf sp_lower) then
      false
    else true

/-- What the `OBJECT_DEFINITION` query can yield: a driver error
(`pyodbc.Error`), or `fetchone()`'s result — no row, or a row whose first
column is the definition (possibly null). -/
inductive QueryOutcome where
  | driverError
  | fetched (row : Option (Option Str))
deriving Repr, DecidableEq

/-- Result of `get_sp_definition`: a returned value, or a raise, labelled by
the code path that raised — connection acquisition, the `ValueError` of name
validation, or a driver error during the query.  (Whatever the path, the
exception that escapes to callers is a `DatabaseConnectionError`: the facade's
`get_connection` context manager, lines 218-227, has its `yield` inside the
`try`, so body exceptions are thrown into the generator and re-wrapped.  The
claims here distinguish only raising from returning.) -/
inductive SpDefOutcome where
  | ret (d : Option Str)
  | raiseConn
  | raiseValidation
  | raiseOperation
deriving Repr, DecidableEq

/-- `DatabaseManager.get_sp_definition` (lines 240-265): acquire a connection,
validate the name (a failure raises `ValueError`, which propagates — re-wrapped
by the context manager as noted on `SpDefOutcome`), query `OBJECT_DEFINITION`,
and return the definition when the row and its first column are truthy,
`None` otherwise. -/
def get_sp_definition (connOk : Bool) (q : QueryOutcome) (sp_name : Str) : SpDefOutcome :=
  if !connOk then .raiseConn
  else if !validate_sp_name sp_name then .raiseValidation
  else
    match q with
    | .driverError => .raiseOperation
    | .fetched none => .ret none
    | .fetched (some col0) =>
      match col0 with
      | some d => if pyTruthy d then .ret (some d) else .ret none
      | none => .ret none

/- ## Embedding of `src/json_processor.py` -/

/-- Fragment `\{.*?\}` (a brace-delimited lazy body). -/
def objBody : RE := .seq (.ch lbC) (.seq (.starL (.cc .any)) (.ch rbC))

/-- Fragment `\[.*?\]`. -/
def arrBody : RE := .seq (.ch '[') (.seq (.starL (.cc .any)) (.ch ']'))

/-- Patterns `EXEC\s+\[.*?\]\s+q(body)q` and the `EXECUTE` variants. -/
def execPattern (kw : Str) (quote : Char) (body : RE) : RE :=
  .seq (.strLit kw)
    (.seq (.plusG (.cc .space))
      (.seq (.ch '[')
        (.seq (.starL (.cc .any))
          (.seq (.ch ']')
            (.seq (.plusG (.cc .space))
              (.seq (.ch quote) (.seq (.group 1 body) (.ch quote))))))))

/-- Patterns `@Json\s*=\s*q(body)q`. -/
def jsonAssignPattern (quote : Char) (body : RE) : RE :=
  .seq (.strLit "@Json".data)
    (.seq (.starG (.cc .space))
      (.seq (.ch '=')
        (.seq (.starG (.cc .space))
          (.seq (.ch quote) (.seq (.group 1 body) (.ch quote))))))

/-- Patterns `@Json\s*=\s*N?'(\{[^']*\})'` and the bracket variant. -/
def jsonAssignNPattern (open_ close_ : Char) (inner : CC) : RE :=
  .seq (.strLit "@Json".data)
    (.seq (.starG (.cc .space))
      (.seq (.ch '=')
        (.seq (.starG (.cc .space))
          (.seq (.optG (.ch 'N'))
            (.seq (.ch sqC)
              (.seq (.group 1 (.seq (.ch open_) (.seq (.starG (.cc inner)) (.ch close_))))
                (.ch sqC)))))))

/-- Pattern `/\*.*?(\{.*?\}).*?\*/`. -/
def commentBlockPattern : RE :=
  .seq (.ch '/')
    (.seq (.ch '*')
      (.seq (.starL (.cc .any))
        (.seq (.group 1 objBody)
          (.seq (.starL (.cc .any)) (.seq (.ch '*') (.ch '/'))))))

/-- Pattern `--.*?(\{.*?\})`. -/
def commentLinePattern : RE :=
  .seq (.ch '-') (.seq (.ch '-') (.seq (.starL (.cc .any)) (.group 1 objBody)))

/-- The ordered pattern list of `JsonProcessor.__init__` (json_processor.py
lines 31-52), compiled with `re.DOTALL | re.IGNORECASE`. -/
def json_patterns : List RE :=
  [execPattern "EXEC".data sqC objBody,
   execPattern "EXEC".data sqC arrBody,
   execPattern "EXEC".data dqC objBody,
   execPattern "EXEC".data dqC arrBody,
   jsonAssignPattern sqC objBody,
   jsonAssignPattern sqC arrBody,
   jsonAssignPattern dqC objBody,
   jsonAssignPattern dqC arrBody,
   execPattern "EXECUTE".data sqC objBody,
   execPattern "EXECUTE".data sqC arrBody,
   jsonAssignNPattern lbC rbC (.noneOf [sqC]),
   jsonAssignNPattern '[' ']' (.noneOf [']']),
   commentBlockPattern,
   commentLinePattern]

/-- Pattern `\s*\n\s*`. -/
def nlRunPattern : RE := .seq (.starG (.cc .space)) (.seq (.ch '\n') (.starG (.cc .space)))

/-- Pattern `\s+`. -/
def wsRunPattern : RE := .plusG (.cc .space)

/-- Pattern `,(\s*[}\]])`. -/
def trailingCommaPattern : RE :=
  .seq (.ch ',') (.group 1 (.seq (.starG (.cc .space)) (.cc (.oneOf [rbC, ']']))))

/-- Pattern `'(\w+)':`. -/
def singleQuoteKeyPattern : RE :=
  .seq (.ch sqC) (.seq (.group 1 (.plusG (.cc .word))) (.seq (.ch sqC) (.ch ':')))

/-- `JsonProcessor._clean_json_string` (json_processor.py lines 157-178):
collapse newline runs and whitespace, strip, drop trailing commas before
closing braces/brackets, and double-quote single-quoted keys.  Its
`except` clause cannot fire: none of the substitutions raises. -/
def clean_json_string (json_str : Str) : Str :=
  if json_str.isEmpty || json_str.length > 100 * 1024 then json_str
  else
    let c1 := reSub flNone nlRunPattern (fun _ => [' ']) json_str 1000
    let c2 := pyStrip (reSub flNone wsRunPattern (fun _ => [' ']) c1 1000)
    let c3 := reSub flNone trailingCommaPattern (fun m => (groupText c2 m 1).getD []) c2 100
    reSub flNone singleQuoteKeyPattern
      (fun m => dqC :: ((groupText c3 m 1).getD []) ++ [dqC, ':']) c3 100

/-- Inner loop of `_extract_with_patterns` (lines 100-118) over one pattern's
matches: skip oversized fragments, clean, and return the re-serialised JSON of
the first fragment that parses. -/
def try_matches (sp : Str) : List ReMatch → Option Str
  | [] => none
  | m :: rest =>
    let json_str := (groupText sp m 1).getD []
    if json_str.length > 100 * 1024 then try_matches sp rest
    else
      match jloads (clean_json_string json_str) with
      | some parsed => some (jdumps parsed)
      | none => try_matches sp rest

def try_patterns (sp : Str) : List RE → Option Str
  | [] => none
  | p :: rest =>
    match try_matches sp (finditer flJson p sp) with
    | some r => some r
    | none => try_patterns sp rest

/-- `JsonProcessor._extract_with_patterns` (json_processor.py lines 88-127):
truncate oversized definitions to 1MB, then try the patterns in order.  The
wall-clock regex timeout of `_safe_regex_finditer` is real time and is not
modelled: each `finditer` is evaluated directly (a timeout would only skip a
pattern); `re.error` cannot occur since the patterns are fixed. -/
def extract_with_patterns (sp_definition : Str) : Option Str :=
  let sp :=
    if sp_definition.length > 1024 * 1024 then sp_definition.take (1024 * 1024)
    else sp_definition
  try_patterns sp json_patterns

/- ## Embedding of `src/main_processor.py` -/

/-- `ProcessingResult` (main_processor.py lines 27-37).  `sp_info` identifies
the procedure and `execution_time_seconds` is wall-clock time; neither affects
any claim, so they are not carried. -/
structure ProcessingResult where
  success : Bool
  definition_saved : Bool
  input_saved : Bool
  output_saved : Bool
  error_message : Str
deriving Repr, DecidableEq

/-- `sp_info.type.upper() in ["GET", "LIST"]` (line 244). -/
def sp_type_in_get_list (spType : Str) : Bool :=
  pyUpper spType = "GET".data || pyUpper spType = "LIST".data

/-- `JsonProcessor.create_input_template` (json_processor.py lines 284-296). -/
def create_input_template (sp_type : Str) : Str :=
  let template : JVal :=
    if sp_type = "Get".data then .jobj [("Id".data, .jint 1)]
    else if sp_type = "List".data then
      .jobj [("PageNumber".data, .jint 1), ("PageSize".data, .jint 10),
             ("SearchTerm".data, .jstr [])]
    else if sp_type = "Save".data then
      .jobj [("Id".data, .jint 0), ("UserId".data, .jint 1), ("BizUnit".data, .jint 1)]
    else if sp_type = "Delete".data then
      .jobj [("Id".data, .jint 1), ("UserId".data, .jint 1)]
    else if sp_type = "Update".data then
      .jobj [("Id".data, .jint 1), ("UserId".data, .jint 1), ("BizUnit".data, .jint 1)]
    else .jobj [("Id".data, .jint 0)]
  jdumps template

/-- The result-collection loop over the save futures (main_processor.py lines
291-301): index 0 records the definition save, index 1 records the input save
when `input_json` is truthy, anything else records the output save; a future
that raised is caught and recorded nowhere. -/
def record_saves (input_truthy : Bool) : Nat → List (Except Str Bool) → ProcessingResult →
    ProcessingResult
  | _, [], r => r
  | i, f :: rest, r =>
    let r' :=
      match f with
      | .error _ => r
      | .ok b =>
        if i = 0 then { r with definition_saved := b }
        else if i = 1 && input_truthy then { r with input_saved := b }
        else { r with output_saved := b }
    record_saves input_truthy (i + 1) rest r'

/-- Truthiness of an optional string (`None` and `""` are falsy). -/
def pyTruthyOpt : Option Str → Bool
  | some s => pyTruthy s
  | none => false

/-- `MainProcessor._process_single_sp` (main_processor.py lines 227-313),
as a function of the outcomes of its collaborator calls, each an
`Except Str` whose error carries `str(e)`:
`getDef` models `self.db_manager.get_sp_definition(sp_info.name)`;
`extractResult` models `self.json_processor.extract_input_json(...)` (invoked
only for `GET`/`LIST` kinds); `createTemplates` is
`self.config.processing.create_input_templates`; `execResult` models
`self.sp_executor.execute_stored_procedure(...)` (which in fact never raises —
every exception is caught inside it — but the model allows it for generality);
`saveDef`/`saveInput`/`saveOutput` model the three `save_file` futures. -/
def process_single_sp (spType : Str) (getDef : Except Str (Option Str))
    (extractResult : Except Str (Option Str)) (createTemplates : Bool)
    (execResult : Except Str Str) (saveDef saveInput saveOutput : Except Str Bool) :
    ProcessingResult :=
  let r0 : ProcessingResult := ⟨false, false, false, false, []⟩
  match getDef with
  | .error msg => { r0 with error_message := msg }
  | .ok defOpt =>
    if !pyTruthyOpt defOpt then
      { r0 with error_message := "Could not retrieve SP definition".data }
    else
      let inputStage : Except Str (Option Str) :=
        if sp_type_in_get_list spType then
          match extractResult with
          | .error msg => .error msg
          | .ok eo =>
            if !pyTruthyOpt eo && createTemplates then
              .ok (some (create_input_template spType))
            else .ok eo
        else .ok none
      match inputStage with
      | .error msg => { r0 with error_message := msg }
      | .ok input_json0 =>
        let input_json : Str :=
          match input_json0 with
          | some j => if pyTruthy j then j else [lbC, rbC]
          | none => [lbC, rbC]
        match execResult with
        | .error msg => { r0 with error_message := msg }
        | .ok output_json =>
          let futures :=
            [saveDef] ++
            (if pyTruthy input_json && sp_type_in_get_list spType then [saveInput] else []) ++
            (if pyTruthy output_json then [saveOutput] else [])
          let r1 := record_saves (pyTruthy input_json) 0 futures r0
          { r1 with success := r1.definition_saved }

/- ## Concrete inputs and derived classifiers used by the claims -/

/-- The spec's signature-analyzer example:
`@Id int, @Name nvarchar(50) = 'x', @Count int OUTPUT`. -/
def c1_input : Str :=
  "@Id int, @Name nvarchar(50) = ".data ++ [sqC, 'x', sqC] ++ ", @Count int OUTPUT".data

/-- The spec's JSON-extraction example fragment: `EXEC [dbo].[X] '\x7b"Id":1,\x7d'`. -/
def c10_fragment : Str :=
  "EXEC [dbo].[X] ".data ++ [sqC] ++ "\x7b\"Id\":1,\x7d".data ++ [sqC]

/-- A source text containing the spec's fragment, preceded by another
procedure-call literal: `EXEC [dbo].[Y] '\x7b"Id":2\x7d' EXEC [dbo].[X] '\x7b"Id":1,\x7d'`. -/
def c10_cex_src : Str :=
  "EXEC [dbo].[Y] ".data ++ [sqC] ++ "\x7b\"Id\":2\x7d".data ++ [sqC] ++ " ".data ++ c10_fragment

/-- An exception the retry loop retries: a typed connection/timeout error, or an
uncategorised exception whose classification is retryable (line 95). -/
def is_retryable_exc : SpExc → Bool
  | .connE _ => true
  | .timeoutE _ => true
  | .otherE p m => retryable_category (categorize_error p m)
  | _ => false

/-- An exception of CONNECTION category: the typed `SPConnectionError`, or an
uncategorised exception classified `CONNECTION`. -/
def is_connection_category : SpExc → Bool
  | .connE _ => true
  | .otherE p m => categorize_error p m = "CONNECTION".data
  | _ => false

/-- The `ErrorCategory` the retry loop reports when its final attempt raises
`e` (lines 81-85 and 101-103). -/
def final_attempt_category : SpExc → Str
  | .connE _ => "RETRYABLE_ERROR".data
  | .timeoutE _ => "RETRYABLE_ERROR".data
  | .permE _ => "PERMANENT_ERROR".data
  | .synE _ => "PERMANENT_ERROR".data
  | .otherE p m => categorize_error p m

/-- The `ErrorMessage` the retry loop reports when its final attempt raises `e`. -/
def final_attempt_message : SpExc → Str
  | .connE m => "Execution failed after retries: ".data ++ m
  | .timeoutE m => "Execution failed after retries: ".data ++ m
  | .permE m => m
  | .synE m => m
  | .otherE _ m => m

/- ## Claim theorems -/

set_option maxRecDepth 1000000

/-- C1: the claim states that on `@Id int, @Name nvarchar(50) = 'x', @Count int
OUTPUT` the analyzer produces exactly one output parameter named `Count` of
base type INT and two input parameters `Id` and `Name`.  Evaluating the
embedded analyzer on that input shows what the code actually produces: the one
output parameter is `Name` (the 20-character lookahead window after `Name`'s
match reaches the `OUTPUT` keyword of the next parameter), and `Count` lands
among the inputs (its own match consumed `OUTPUT` as the terminator, so the
lookahead window after it is empty).  `Name`'s size 50 and default literal
`'x'` are detected as the claim says, but on the wrong side of the
input/output split. -/
theorem C1_analyze_signature_on_spec_example :
    analyze_sp_signature c1_input = .ok
      { has_output_params := true,
        output_params := [
          { name := "Name".data, type := "NVARCHAR".data,
            full_type := "nvarchar(50)".data, size := some (.numSize 50),
            precision := none, scale := none, nullable := true,
            default := some [sqC, 'x', sqC], is_output := true }],
        input_params := [
          { name := "Id".data, type := "INT".data, full_type := "int".data,
            size := none, precision := none, scale := none, nullable := true,
            default := none, is_output := false },
          { name := "Count".data, type := "INT".data, full_type := "int".data,
            size := none, precision := none, scale := none, nullable := true,
            default := none, is_output := false }],
        has_return_value := false } := by
  rfl

/-- C10 (amended): on a source text consisting of exactly the fragment
`EXEC [dbo].[X] '\x7b"Id":1,\x7d'`, extraction succeeds, the trailing comma is
removed during cleaning, and the result is the formatted serialisation of the
object `\x7b"Id": 1\x7d`, which round-trips through parse/serialise with the
numeric value 1 preserved. -/
theorem C10_extraction_on_fragment :
    extract_with_patterns c10_fragment = some (jdumps (.jobj [("Id".data, .jint 1)])) ∧
    jloads (jdumps (.jobj [("Id".data, .jint 1)])) = some (.jobj [("Id".data, .jint 1)]) := by
  exact ⟨by rfl, by rfl⟩

/-- C10 (counterexample): the claim quantifies over every source text merely
containing the fragment.  A source containing an earlier procedure-call literal
`EXEC [dbo].[Y] '\x7b"Id":2\x7d'` before the fragment makes extraction return that
earlier object instead of `\x7b"Id": 1\x7d`, so the claim as stated is false. -/
theorem C10_containing_source_counterexample :
    containsSub c10_cex_src c10_fragment = true ∧
    extract_with_patterns c10_cex_src = some (jdumps (.jobj [("Id".data, .jint 2)])) ∧
    jdumps (.jobj [("Id".data, .jint 2)]) ≠ jdumps (.jobj [("Id".data, .jint 1)]) := by
  refine ⟨by decide, by rfl, by decide⟩

/-- Decimal rendering is never empty. -/
theorem natToStrAux_ne_nil (f n : Nat) : natToStrAux (f + 1) n ≠ [] := by
  unfold natToStrAux
  split
  · simp
  · simp

/-- Python `str(n)` of a natural is never empty. -/
theorem natToStr_ne_nil (n : Nat) : natToStr n ≠ [] := natToStrAux_ne_nil n n

/-- No generated result-set key equals the bare probe string `"ResultSet_"`. -/
theorem rsKey_ne_probe (n : Nat) : "ResultSet_".data ++ natToStr n ≠ "ResultSet_".data := by
  intro h
  have hl := congrArg List.length h
  simp at hl
  exact natToStr_ne_nil n hl

/-- The last element of a list is a member of it. -/
theorem mem_of_getLast? {α : Type} {l : List α} {a : α} (h : l.getLast? = some a) : a ∈ l := by
  induction l with
  | nil => simp [List.getLast?] at h
  | cons x t ih =>
    cases t with
    | nil => simp [List.getLast?] at h; simp [h]
    | cons y u =>
      rw [List.getLast?_cons_cons] at h
      exact List.mem_cons_of_mem x (ih h)

/-- Every dictionary `_process_all_result_sets` emits has a key of the form
`ResultSet_<n>`. -/
theorem process_all_keys {α : Type} (tp : α → α) :
    ∀ (sets : List (Option (List Str × List (List α)))) (n : Nat) e,
      e ∈ process_all_result_sets tp sets n →
      ∃ m, e.key = "ResultSet_".data ++ natToStr m := by
  intro sets
  induction sets with
  | nil => intro n e h; simp [process_all_result_sets] at h
  | cons hd rest ih =>
    intro n e h
    cases hd with
    | none => exact ih n e h
    | some cr =>
      rw [process_all_result_sets] at h
      rcases List.mem_cons.mp h with h1 | h2
      · exact ⟨n, by rw [h1]⟩
      · exact ih (n + 1) e h2

/-- C2: the claim states that on the output-parameter strategy the last result
set is excluded from `ResultSets` (which holds) and its first row is reported
as `OutputParameters`.  The second half is false: the guard
`"ResultSet_" in last_result` is a Python dictionary *key* membership test,
and every key has the form `ResultSet_<n>`, never the bare probe string — so
`OutputParameters` is `None` on every execution, whatever the driver returns. -/
theorem C2_output_parameters_always_none {α : Type} (tp : α → α)
    (sets : List (Option (List Str × List (List α)))) :
    (execute_with_output_params_result tp sets).outputParameters = none ∧
    (process_all_result_sets tp sets 0 ≠ [] →
      (execute_with_output_params_result tp sets).resultSets =
        (process_all_result_sets tp sets 0).dropLast) := by
  constructor
  · unfold execute_with_output_params_result
    cases hL : (process_all_result_sets tp sets 0).getLast? with
    | none => simp [hL, create_success_response]
    | some last =>
      obtain ⟨m, hk⟩ := process_all_keys tp sets 0 last (mem_of_getLast? hL)
      have hne : last.key ≠ "ResultSet_".data := by rw [hk]; exact rsKey_ne_probe m
      simp [hL, hne, create_success_response]
  · intro hne
    unfold execute_with_output_params_result
    rcases h : process_all_result_sets tp sets 0 with _ | ⟨a, _ | ⟨b, t⟩⟩
    · exact absurd h hne
    · simp [create_success_response]
    · simp [create_success_response]

/-- C2 witness: one delivered result set with a single row; the envelope
reports no output parameters and an empty result-set list. -/
theorem C2_output_parameters_witness :
    (execute_with_output_params_result (α := Unit) id
      [some (["Count".data], [[Unit.unit]])]).outputParameters = none ∧
    (execute_with_output_params_result (α := Unit) id
      [some (["Count".data], [[Unit.unit]])]).resultSets =
      (process_all_result_sets (α := Unit) id [some (["Count".data], [[Unit.unit]])] 0).dropLast := by
  refine ⟨(C2_output_parameters_always_none id _).1, ?_⟩
  exact (C2_output_parameters_always_none id _).2 (by decide)

/-- From index 1 on, the save-recording loop never touches `definition_saved`. -/
theorem record_saves_high (it : Bool) :
    ∀ (fs : List (Except Str Bool)) (i : Nat) (r : ProcessingResult), 1 ≤ i →
      (record_saves it i fs r).definition_saved = r.definition_saved := by
  intro fs
  induction fs with
  | nil => intro i r _; rfl
  | cons f t ih =>
    intro i r hi
    have hiz : ¬(i = 0) := by omega
    cases f with
    | error m => simpa [record_saves] using ih (i + 1) r (by omega)
    | ok b =>
      simp only [record_saves, hiz, if_false]
      split
      · exact ih (i + 1) _ (by omega)
      · exact ih (i + 1) _ (by omega)

/-- The save-recording loop records exactly the first future (the definition
save) into `definition_saved`; a raised future leaves it unchanged. -/
theorem record_saves_zero (it : Bool) (f0 : Except Str Bool) (fs : List (Except Str Bool))
    (r : ProcessingResult) :
    (record_saves it 0 (f0 :: fs) r).definition_saved =
      (match f0 with | .ok b => b | .error _ => r.definition_saved) := by
  cases f0 with
  | error m => simp [record_saves, record_saves_high it fs 1 r (by omega)]
  | ok b => simp [record_saves, record_saves_high it fs 1 _ (by omega)]

/-- C4: a processed procedure's `success` equals its `definition_saved` on
every path (collaborator failures included), and — with the execution result a
returned envelope string, as `execute_stored_procedure` guarantees — `success`
does not depend on the execution envelope's content or on the input/output
save outcomes. -/
theorem C4_success_iff_definition_saved (spType : Str) (getDef : Except Str (Option Str))
    (er : Except Str (Option Str)) (ct : Bool) (ex : Except Str Str)
    (sd si so : Except Str Bool) :
    ((process_single_sp spType getDef er ct ex sd si so).success =
      (process_single_sp spType getDef er ct ex sd si so).definition_saved) ∧
    (∀ (out out' : Str) (si' so' : Except Str Bool),
      (process_single_sp spType getDef er ct (.ok out) sd si so).success =
      (process_single_sp spType getDef er ct (.ok out') sd si' so').success) := by
  constructor
  · unfold process_single_sp
    cases getDef with
    | error m => rfl
    | ok defOpt =>
      cases hdef : pyTruthyOpt defOpt with
      | false => simp [hdef]
      | true =>
        simp only [hdef, Bool.not_true, Bool.false_eq_true, if_false]
        split
        · rfl
        · cases ex with
          | error m => rfl
          | ok oj => simp only [List.singleton_append, List.cons_append]
  · intro out out' si' so'
    unfold process_single_sp
    cases getDef with
    | error m => rfl
    | ok defOpt =>
      cases hdef : pyTruthyOpt defOpt with
      | false => simp [hdef]
      | true =>
        simp only [hdef, Bool.not_true, Bool.false_eq_true, if_false]
        split
        · rfl
        · simp only [List.singleton_append, List.cons_append, record_saves_zero]

/-- A loop iteration whose try-block body returns hands that envelope back,
after exactly one attempt. -/
theorem attempts_ret {α : Type} (b : Nat → AttemptOutcome α) (attempt r : Nat)
    (env : Envelope α) (hb : b attempt = .ret env) :
    execute_attempts 3 b attempt (r + 1) = (env, 1) := by
  simp [execute_attempts, hb]

/-- A non-final loop iteration whose body raises a retryable error retries:
the result is that of the next attempt, with one more attempt consumed. -/
theorem attempts_step_retryable {α : Type} (b : Nat → AttemptOutcome α) (attempt r : Nat)
    (hlt : attempt < 2) (e : SpExc) (hb : b attempt = .raise e)
    (hr : is_retryable_exc e = true) :
    execute_attempts 3 b attempt (r + 1) =
      ((execute_attempts 3 b (attempt + 1) r).1, (execute_attempts 3 b (attempt + 1) r).2 + 1) := by
  cases e with
  | connE m => simp [execute_attempts, hb, hlt]
  | timeoutE m => simp [execute_attempts, hb, hlt]
  | permE m => simp [is_retryable_exc] at hr
  | synE m => simp [is_retryable_exc] at hr
  | otherE p m =>
    simp only [is_retryable_exc] at hr
    simp [execute_attempts, hb, hr, hlt]

/-- The final loop iteration (attempt index 2) with a retryable error returns
the error envelope of lines 81-85 or 101-103 — not the post-loop response. -/
theorem attempts_last_retryable {α : Type} (b : Nat → AttemptOutcome α) (e : SpExc)
    (hb : b 2 = .raise e) (hr : is_retryable_exc e = true) (r : Nat) :
    execute_attempts (α := α) 3 b 2 (r + 1) =
      (create_error_response (final_attempt_message e) (final_attempt_category e), 1) := by
  cases e with
  | connE m => simp [execute_attempts, hb, final_attempt_message, final_attempt_category]
  | timeoutE m => simp [execute_attempts, hb, final_attempt_message, final_attempt_category]
  | permE m => simp [is_retryable_exc] at hr
  | synE m => simp [is_retryable_exc] at hr
  | otherE p m =>
    simp only [is_retryable_exc] at hr
    simp [execute_attempts, hb, final_attempt_message, final_attempt_category]

/-- The retryable categories are exactly `TIMEOUT` and `CONNECTION`. -/
theorem retryable_category_cases (cat : Str) (h : retryable_category cat = true) :
    cat = "TIMEOUT".data ∨ cat = "CONNECTION".data := by
  simp only [retryable_category, Bool.or_eq_true, decide_eq_true_eq] at h
  exact h

/-- The category reported for a retryable final-attempt error is never
`MAX_RETRIES_EXCEEDED`. -/
theorem final_category_ne_max (e : SpExc) (hr : is_retryable_exc e = true) :
    final_attempt_category e ≠ "MAX_RETRIES_EXCEEDED".data := by
  cases e with
  | connE m => simp only [final_attempt_category]; decide
  | timeoutE m => simp only [final_attempt_category]; decide
  | permE m => simp [is_retryable_exc] at hr
  | synE m => simp [is_retryable_exc] at hr
  | otherE p m =>
    simp only [is_retryable_exc] at hr
    rcases retryable_category_cases _ hr with h | h <;>
      simp [final_attempt_category, h]

/-- A CONNECTION-category error is retryable. -/
theorem is_conn_retryable (e : SpExc) (h : is_connection_category e = true) :
    is_retryable_exc e = true := by
  cases e with
  | connE m => rfl
  | timeoutE m => simp [is_connection_category] at h
  | permE m => simp [is_connection_category] at h
  | synE m => simp [is_connection_category] at h
  | otherE p m =>
    simp only [is_connection_category, decide_eq_true_eq] at h
    simp [is_retryable_exc, retryable_category, h]

/-- C3 (amended): when all three attempts raise retryable errors, the returned
envelope's category is the one derived from the third error — `RETRYABLE_ERROR`
for the typed connection/timeout exceptions, the classified `TIMEOUT`/
`CONNECTION` for uncategorised ones — and never `MAX_RETRIES_EXCEEDED`: the
loop always returns from its last iteration, so the post-loop response of
line 105 is unreachable. -/
theorem C3_retry_exhaustion_category {α : Type} (b : Nat → AttemptOutcome α)
    (e0 e1 e2 : SpExc)
    (hb0 : b 0 = .raise e0) (hr0 : is_retryable_exc e0 = true)
    (hb1 : b 1 = .raise e1) (hr1 : is_retryable_exc e1 = true)
    (hb2 : b 2 = .raise e2) (hr2 : is_retryable_exc e2 = true) :
    execute_stored_procedure b =
      (create_error_response (final_attempt_message e2) (final_attempt_category e2), 3) ∧
    final_attempt_category e2 ≠ "MAX_RETRIES_EXCEEDED".data := by
  refine ⟨?_, final_category_ne_max e2 hr2⟩
  show execute_attempts 3 b 0 (2 + 1) = _
  rw [attempts_step_retryable b 0 2 (by omega) e0 hb0 hr0]
  rw [show (2 : Nat) = 1 + 1 from rfl, attempts_step_retryable b 1 1 (by omega) e1 hb1 hr1]
  rw [show (1 : Nat) = 0 + 1 from rfl, attempts_last_retryable b e2 hb2 hr2 0]

/-- C3 (counterexample): with every attempt raising `SPConnectionError`, the
claim's `MAX_RETRIES_EXCEEDED` category is not what the code returns — the
envelope carries `RETRYABLE_ERROR` after all three attempts. -/
theorem C3_counterexample_all_connection_failures :
    (execute_stored_procedure (α := Unit)
        (fun _ => .raise (.connE "connection lost".data))).1.errorCategory =
      some "RETRYABLE_ERROR".data ∧
    some "RETRYABLE_ERROR".data ≠ some "MAX_RETRIES_EXCEEDED".data ∧
    (execute_stored_procedure (α := Unit)
        (fun _ => .raise (.connE "connection lost".data))).2 = 3 := by
  exact ⟨by rfl, by decide, by rfl⟩

/-- C3 witness: the amended statement instantiated at a concrete behavior. -/
theorem C3_retry_exhaustion_witness :
    execute_stored_procedure (α := Unit) (fun _ => .raise (.connE "net down".data)) =
      (create_error_response (final_attempt_message (.connE "net down".data))
        (final_attempt_category (.connE "net down".data)), 3) ∧
    final_attempt_category (SpExc.connE "net down".data) ≠ "MAX_RETRIES_EXCEEDED".data :=
  C3_retry_exhaustion_category (fun _ => .raise (.connE "net down".data))
    (.connE "net down".data) (.connE "net down".data) (.connE "net down".data)
    rfl rfl rfl rfl rfl rfl

/-- C5: CONNECTION-category failures on attempts 1 and 2 followed by a
successful third attempt yield that attempt's success envelope after exactly
3 attempts, with no `ErrorMessage`/`ErrorCategory` fields; and an attempt
raising a PERMISSION-category error — the typed `SPPermissionError`, or an
uncategorised exception classified `PERMISSION` — returns an error envelope
immediately, consuming exactly one further attempt. -/
theorem C5_retry_recovery_and_permission {α : Type} :
    (∀ (e0 e1 : SpExc) (rs : List (RsEntry α)) (op : Option (List (Str × α))),
      is_connection_category e0 = true → is_connection_category e1 = true →
      execute_stored_procedure
          (fun k => if k = 0 then .raise e0 else if k = 1 then .raise e1
            else .ret (create_success_response rs op)) =
        (create_success_response rs op, 3) ∧
      (create_success_response rs op).errorMessage = none ∧
      (create_success_response rs op).errorCategory = none ∧
      (create_success_response (α := α) rs op).executionStatus = "Success".data) ∧
    (∀ (b : Nat → AttemptOutcome α) (attempt rem : Nat) (m : Str),
      b attempt = .raise (.permE m) →
      execute_attempts 3 b attempt (rem + 1) = (create_error_response m "PERMANENT_ERROR".data, 1)) ∧
    (∀ (b : Nat → AttemptOutcome α) (attempt rem : Nat) (p : Bool) (m : Str),
      b attempt = .raise (.otherE p m) → categorize_error p m = "PERMISSION".data →
      execute_attempts 3 b attempt (rem + 1) = (create_error_response m "PERMISSION".data, 1)) := by
  refine ⟨?_, ?_, ?_⟩
  · intro e0 e1 rs op h0 h1
    refine ⟨?_, rfl, rfl, rfl⟩
    show execute_attempts 3 _ 0 (2 + 1) = _
    rw [attempts_step_retryable _ 0 2 (by omega) e0 (by simp) (is_conn_retryable e0 h0)]
    rw [show (2 : Nat) = 1 + 1 from rfl,
      attempts_step_retryable _ 1 1 (by omega) e1 (by simp) (is_conn_retryable e1 h1)]
    rw [show (1 : Nat) = 0 + 1 from rfl,
      attempts_ret _ 2 0 (create_success_response rs op) (by simp)]
  · intro b attempt rem m hb
    simp [execute_attempts, hb]
  · intro b attempt rem p m hb hcat
    simp [execute_attempts, hb, hcat, retryable_category]

/-- C5 witness: each part instantiated at concrete behaviors. -/
theorem C5_retry_recovery_witness :
    (execute_stored_procedure (α := Unit)
        (fun k => if k = 0 then .raise (.connE "net".data) else if k = 1 then .raise (.connE "net".data)
          else .ret (create_success_response [] none)) =
      (create_success_response [] none, 3) ∧
      (create_success_response (α := Unit) [] none).errorMessage = none ∧
      (create_success_response (α := Unit) [] none).errorCategory = none ∧
      (create_success_response (α := Unit) [] none).executionStatus = "Success".data) ∧
    execute_attempts (α := Unit) 3 (fun _ => .raise (.permE "denied".data)) 0 (2 + 1) =
      (create_error_response "denied".data "PERMANENT_ERROR".data, 1) ∧
    execute_attempts (α := Unit) 3 (fun _ => .raise (.otherE false "permission refused".data)) 0 (2 + 1) =
      (create_error_response "permission refused".data "PERMISSION".data, 1) := by
  refine ⟨C5_retry_recovery_and_permission.1 _ _ [] none rfl rfl, ?_, ?_⟩
  · exact C5_retry_recovery_and_permission.2.1 _ 0 2 _ rfl
  · exact C5_retry_recovery_and_permission.2.2 _ 0 2 false _ rfl (by rfl)

/-- `_create_connection` preserves the counter ceiling: it increments only
under the `created < cap` guard. -/
theorem create_connection_le (cap : Nat) (c : Bool) (s : PoolState)
    (h : s.created ≤ (cap : Int)) :
    ((create_connection cap c s).1).created ≤ (cap : Int) := by
  unfold create_connection
  split
  · exact h
  · split <;> simp <;> omega

/-- The release path never increments the counter. -/
theorem finally_block_le (cap : Nat) (o v : Bool) (s : PoolState) :
    (finally_block cap o v s).created ≤ s.created := by
  unfold finally_block
  repeat' split
  all_goals simp

/-- The yield-and-release phase never increments the counter. -/
theorem yield_le (cap : Nat) (e : GetEnv) (s : PoolState) :
    ((get_connection_yield cap e s).1).created ≤ s.created := by
  unfold get_connection_yield
  split
  · have := finally_block_le cap false e.validAtRelease
      { s with created := s.created - 1, closedTotal := s.closedTotal + 1 }
    simp at this ⊢
    omega
  · exact finally_block_le cap true e.validAtRelease s

/-- The validity-probe phase preserves the counter ceiling. -/
theorem probe_le (cap : Nat) (e : GetEnv) (s : PoolState) (h : s.created ≤ (cap : Int)) :
    ((get_connection_probe cap e s).1).created ≤ (cap : Int) := by
  unfold get_connection_probe
  split
  · exact le_trans (yield_le cap e s) h
  · rcases hc : create_connection cap e.createOk2 { s with closedTotal := s.closedTotal + 1 }
      with ⟨s3, fail⟩
    have h3 : s3.created ≤ (cap : Int) := by
      have := create_connection_le cap e.createOk2
        { s with closedTotal := s.closedTotal + 1 } (by simpa using h)
      rw [hc] at this
      exact this
    cases fail with
    | none =>
      simp only [hc]
      exact le_trans (yield_le cap e s3) h3
    | some f =>
      simp only [hc]
      have := finally_block_le cap false e.validAtRelease { s3 with created := s3.created - 1 }
      simp at this ⊢
      omega

/-- A whole `get_connection` scope preserves the counter ceiling. -/
theorem get_connection_le (cap : Nat) (e : GetEnv) (s : PoolState)
    (h : s.created ≤ (cap : Int)) :
    ((get_connection cap e s).1).created ≤ (cap : Int) := by
  unfold get_connection
  split
  · exact probe_le cap e _ (by simpa using h)
  · rcases hc : create_connection cap e.createOk1 s with ⟨s1, fail⟩
    have h1 : s1.created ≤ (cap : Int) := by
      have := create_connection_le cap e.createOk1 s h
      rw [hc] at this
      exact this
    cases fail with
    | none => simp only [hc]; exact probe_le cap e s1 h1
    | some f => simp only [hc]; exact h1

/-- Every pool interaction preserves the counter ceiling. -/
theorem pool_step_le (cap : Nat) (st : PoolStep) (s : PoolState)
    (h : s.created ≤ (cap : Int)) :
    (pool_step cap s st).created ≤ (cap : Int) := by
  cases st with
  | create ok => exact create_connection_le cap ok s h
  | get e => exact get_connection_le cap e s h
  | prepopulate ok =>
    unfold pool_step
    rcases hc : create_connection cap ok s with ⟨s1, fail⟩
    have h1 : s1.created ≤ (cap : Int) := by
      have := create_connection_le cap ok s h
      rw [hc] at this
      exact this
    cases fail with
    | none => simp only [hc]; simpa using h1
    | some f => simp only [hc]; exact h1

/-- C6: from any state within the ceiling — the fresh pool starts at 0 — no
sequence of `_create_connection`, pre-population and `get_connection` steps
(failing ones included) pushes `_created_connections` above
`pool_size + max_overflow`; and once the counter has reached the ceiling,
`_create_connection` raises the pool-exhausted error leaving the state
unchanged instead of incrementing. -/
theorem C6_created_never_exceeds_ceiling (poolSize maxOverflow : Nat) :
    (∀ (steps : List PoolStep) (s : PoolState),
      s.created ≤ ((poolSize + maxOverflow : Nat) : Int) →
      (pool_run (poolSize + maxOverflow) steps s).created ≤
        ((poolSize + maxOverflow : Nat) : Int)) ∧
    (∀ (s : PoolState) (c : Bool), ((poolSize + maxOverflow : Nat) : Int) ≤ s.created →
      create_connection (poolSize + maxOverflow) c s = (s, some .exhausted)) := by
  constructor
  · intro steps
    induction steps with
    | nil => intro s h; exact h
    | cons st rest ih =>
      intro s h
      exact ih (pool_step (poolSize + maxOverflow) s st) (pool_step_le _ st s h)
  · intro s c h
    unfold create_connection
    split
    · rfl
    · next hcond => exact absurd h hcond

/-- C6 witness: a concrete step sequence from the fresh pool, and the
exhaustion branch at the ceiling, with the repository's `pool_size = 3`,
`max_overflow = 7`. -/
theorem C6_created_never_exceeds_witness :
    (pool_run (3 + 7)
        [.prepopulate true, .get ⟨true, true, true, true, true⟩, .create true,
         .get ⟨true, false, true, false, false⟩] pool_init).created ≤ ((3 + 7 : Nat) : Int) ∧
    create_connection (3 + 7) true ⟨10, 0, 10, 0⟩ = (⟨10, 0, 10, 0⟩, some .exhausted) := by
  constructor
  · exact (C6_created_never_exceeds_ceiling 3 7).1 _ pool_init (by decide)
  · exact (C6_created_never_exceeds_ceiling 3 7).2 ⟨10, 0, 10, 0⟩ true (by decide)

/-- C7: when the caller's block raises while a live connection is held (either
dequeued, or freshly created under the ceiling), `get_connection` re-raises
after decrementing the counter twice for that single connection — once in the
exception handler and once in the `finally` block, where the already-closed
connection fails validation.  Starting from consistent accounting
(`created + closedTotal = openedTotal`), the counter afterwards undercounts
open connections by exactly one, and on the dequeue path it drops by two —
from a state with `created = 1` it becomes `-1`, negative. -/
theorem C7_body_exception_double_decrement (cap : Nat) (e : GetEnv) (s : PoolState)
    (hvi : e.validInitial = true) (hbr : e.bodyRaises = true)
    (hacq : 0 < s.pooled ∨ (s.pooled = 0 ∧ e.createOk1 = true ∧ s.created < (cap : Int)))
    (hacc : s.created + s.closedTotal = s.openedTotal) :
    (get_connection cap e s).2 = true ∧
    ((get_connection cap e s).1).created + ((get_connection cap e s).1).closedTotal + 1 =
      ((get_connection cap e s).1).openedTotal ∧
    (0 < s.pooled → ((get_connection cap e s).1).created = s.created - 2) := by
  rcases hacq with hpos | ⟨hz, hok, hlt⟩
  · simp only [get_connection, hpos, if_true, get_connection_probe, hvi, if_true,
      get_connection_yield, hbr, if_true, finally_block, Bool.not_false]
    simp
    omega
  · have hnl : ¬(0 < s.pooled) := by omega
    have hng : ¬(s.created ≥ (cap : Int)) := by omega
    simp only [get_connection, hnl, if_false, create_connection, ge_iff_le, hng, if_false,
      hok, if_true, get_connection_probe, hvi, get_connection_yield, hbr,
      finally_block, Bool.not_false]
    simp
    omega

/-- C7 witness: pool with one pooled connection and `created = 1`; after the
caller's exception the counter is `-1`, which is negative, and accounting is
off by one. -/
theorem C7_body_exception_witness :
    (get_connection 10 ⟨true, true, true, true, true⟩ ⟨1, 1, 1, 0⟩).2 = true ∧
    ((get_connection 10 ⟨true, true, true, true, true⟩ ⟨1, 1, 1, 0⟩).1).created = -1 ∧
    ((get_connection 10 ⟨true, true, true, true, true⟩ ⟨1, 1, 1, 0⟩).1).created < 0 := by
  have h := C7_body_exception_double_decrement 10 ⟨true, true, true, true, true⟩ ⟨1, 1, 1, 0⟩
    rfl rfl (Or.inl (by decide)) (by decide)
  refine ⟨h.1, ?_, ?_⟩
  · rw [h.2.2 (by decide)]; decide
  · rw [h.2.2 (by decide)]; decide

/-- A prefix of `a` is a prefix of `a ++ b`. -/
theorem isPrefixOf_append_right {p a : Str} (b : Str) (h : p.isPrefixOf a = true) :
    p.isPrefixOf (a ++ b) = true := by
  induction p generalizing a with
  | nil => rcases (a ++ b) with _ | ⟨x, xs⟩ <;> rfl
  | cons c cs ih =>
    cases a with
    | nil => simp [List.isPrefixOf] at h
    | cons c' as =>
      simp only [List.cons_append, List.isPrefixOf, Bool.and_eq_true] at h ⊢
      exact ⟨h.1, ih h.2⟩

/-- A prefix is in particular a substring. -/
theorem containsSub_of_isPrefixOf {hay pat : Str} (h : pat.isPrefixOf hay = true) :
    containsSub hay pat = true := by
  cases hay with
  | nil =>
    cases pat with
    | nil => rfl
    | cons c cs => simp [List.isPrefixOf] at h
  | cons c t => simp [containsSub, h]

/-- Joining a nonempty list starts with its first element. -/
theorem intercalate_head (sep a : Str) (l : List Str) :
    ∃ u, List.intercalate sep (a :: l) = a ++ u := by
  cases l with
  | nil => exact ⟨[], by simp [List.intercalate]⟩
  | cons b t =>
    refine ⟨sep ++ List.intercalate sep (b :: t), ?_⟩
    simp [List.intercalate, List.intersperse]

/-- The conversion loop body only ever appends parts. -/
theorem odbc_fold_step_extends (parts : List Str) (kv : Str × Str) :
    ∃ δ, odbc_fold_step parts kv = parts ++ δ := by
  unfold odbc_fold_step
  split
  · exact ⟨[], by simp⟩
  · split
    · exact ⟨_, rfl⟩
    · split
      · exact ⟨_, rfl⟩
      · split
        · exact ⟨_, rfl⟩
        · exact ⟨_, rfl⟩

/-- Folding the conversion loop preserves the leading parts. -/
theorem foldl_odbc_extends :
    ∀ (l : List (Str × Str)) (parts : List Str),
      ∃ t, l.foldl odbc_fold_step parts = parts ++ t := by
  intro l
  induction l with
  | nil => exact fun parts => ⟨[], by simp⟩
  | cons x xs ih =>
    intro parts
    obtain ⟨δ, hδ⟩ := odbc_fold_step_extends parts x
    obtain ⟨t, ht⟩ := ih (odbc_fold_step parts x)
    exact ⟨δ ++ t, by rw [List.foldl_cons, ht, hδ, List.append_assoc]⟩

/-- Every converted string starts with the fixed `DRIVER=...` part. -/
theorem convert_starts_with_driver (s : Str) :
    ∃ u, convert_to_odbc_format s = odbcDriverPart ++ u := by
  unfold convert_to_odbc_format
  obtain ⟨t, ht⟩ := foldl_odbc_extends (parse_dotnet_connection_string s) [odbcDriverPart]
  rw [ht, List.singleton_append]
  obtain ⟨u, hu⟩ := intercalate_head ";".data odbcDriverPart t
  rw [hu]
  exact ⟨u ++ ";".data, by simp⟩

/-- Every converted string upper-cases to something containing `DRIVER=`. -/
theorem convert_contains_driver (s : Str) :
    containsSub (pyUpper (convert_to_odbc_format s)) "DRIVER=".data = true := by
  obtain ⟨u, hu⟩ := convert_starts_with_driver s
  rw [hu]
  apply containsSub_of_isPrefixOf
  unfold pyUpper
  rw [List.map_append]
  exact isPrefixOf_append_right _ (by decide)

/-- C8: a connection string already containing the `DRIVER=` token (upper-cased
check) passes through the normaliser unchanged, and the normaliser is
idempotent on every input: a converted string always starts with the fixed
`DRIVER=\x7bODBC Driver 17 for SQL Server\x7d` part, so a second application
takes the passthrough branch. -/
theorem C8_normalization_idempotent :
    (∀ s : Str, containsSub (pyUpper s) "DRIVER=".data = true →
      prepare_connection_string s = s) ∧
    (∀ s : Str, prepare_connection_string (prepare_connection_string s) =
      prepare_connection_string s) := by
  constructor
  · intro s h
    simp [prepare_connection_string, h]
  · intro s
    by_cases h : containsSub (pyUpper s) "DRIVER=".data = true
    · simp [prepare_connection_string, h]
    · have h1 : prepare_connection_string s = convert_to_odbc_format s := by
        simp [prepare_connection_string, h]
      rw [h1]
      simp [prepare_connection_string, convert_contains_driver s]

/-- C8 witness: the passthrough branch at a concrete ODBC-format string. -/
theorem C8_normalization_witness :
    containsSub (pyUpper ("DRIVER=\x7bSQL Server\x7d;SERVER=a;".data)) "DRIVER=".data = true ∧
    prepare_connection_string "DRIVER=\x7bSQL Server\x7d;SERVER=a;".data =
      "DRIVER=\x7bSQL Server\x7d;SERVER=a;".data := by
  refine ⟨by decide, C8_normalization_idempotent.1 _ (by decide)⟩

/-- Mapping a function over both lists preserves the prefix relation. -/
theorem isPrefixOf_map (f : Char → Char) {p h : Str} (hp : p.isPrefixOf h = true) :
    (p.map f).isPrefixOf (h.map f) = true := by
  induction p generalizing h with
  | nil => rcases (h.map f) with _ | ⟨x, xs⟩ <;> rfl
  | cons c cs ih =>
    cases h with
    | nil => simp [List.isPrefixOf] at hp
    | cons c' hs =>
      simp only [List.map_cons, List.isPrefixOf, Bool.and_eq_true, beq_iff_eq] at hp ⊢
      exact ⟨by rw [hp.1], ih hp.2⟩

/-- Mapping a function over both lists preserves substring containment; in
particular a name containing `;` lower-cases to one containing `;`. -/
theorem containsSub_map (f : Char → Char) {hay pat : Str} (h : containsSub hay pat = true) :
    containsSub (hay.map f) (pat.map f) = true := by
  induction hay with
  | nil =>
    cases pat with
    | nil => rfl
    | cons c cs => simp [containsSub] at h
  | cons c t ih =>
    simp only [containsSub, Bool.or_eq_true] at h
    rcases h with h | h
    · simp only [List.map_cons, containsSub, Bool.or_eq_true]
      exact Or.inl (by simpa using isPrefixOf_map f h)
    · simp only [List.map_cons, containsSub, Bool.or_eq_true]
      exact Or.inr (ih h)

/-- Every name matching the claim's blacklist conditions fails
`_validate_sp_name`. -/
theorem validate_false_of_bad (name : Str)
    (h : name = [] ∨ containsSub name ";".data = true ∨ containsSub name "--".data = true ∨
      containsSub name "/*".data = true ∨ containsSub name "*/".data = true ∨
      (containsSub (pyLower name) "xp_".data = true ∧
       "[dbo].[xp_".data.isPrefixOf (pyLower name) = false)) :
    validate_sp_name name = false := by
  unfold validate_sp_name
  rcases h with h | h | h | h | h | ⟨h1, h2⟩
  · subst h; rfl
  · split
    · rfl
    · have hc : containsSub (pyLower name) ";".data = true := by
        simpa using containsSub_map Char.toLower h
      simp [hc]
  · split
    · rfl
    · have hc : containsSub (pyLower name) "--".data = true := by
        simpa using containsSub_map Char.toLower h
      simp [hc]
  · split
    · rfl
    · have hc : containsSub (pyLower name) "/*".data = true := by
        simpa using containsSub_map Char.toLower h
      simp [hc]
  · split
    · rfl
    · have hc : containsSub (pyLower name) "*/".data = true := by
        simpa using containsSub_map Char.toLower h
      simp [hc]
  · split
    · rfl
    · by_cases hd : (containsSub (pyLower name) ";".data || containsSub (pyLower name) "--".data ||
        containsSub (pyLower name) "/*".data || containsSub (pyLower name) "*/".data) = true <;>
        simp [hd, h1, h2]

/-- C9: with a working connection, `get_sp_definition` raises (the re-raised
`ValueError` of name validation) for every name that is empty or contains `;`,
`--`, `/*` or `*/`, or contains `xp_` case-insensitively without the
`[dbo].[xp_` bracket qualification; and for every name passing validation whose
object-definition lookup yields no row or a null definition, it returns `None`
rather than raising. -/
theorem C9_sp_name_validation :
    (∀ (name : Str) (q : QueryOutcome),
      (name = [] ∨ containsSub name ";".data = true ∨ containsSub name "--".data = true ∨
       containsSub name "/*".data = true ∨ containsSub name "*/".data = true ∨
       (containsSub (pyLower name) "xp_".data = true ∧
        "[dbo].[xp_".data.isPrefixOf (pyLower name) = false)) →
      get_sp_definition true q name = .raiseValidation) ∧
    (∀ (name : Str) (q : QueryOutcome), validate_sp_name name = true →
      (q = .fetched none ∨ q = .fetched (some none)) →
      get_sp_definition true q name = .ret none) := by
  constructor
  · intro name q h
    simp [get_sp_definition, validate_false_of_bad name h]
  · intro name q hv hq
    rcases hq with rfl | rfl <;> simp [get_sp_definition, hv]

/-- C9 witness: a name with `;` raises; a clean name with a missing definition
returns `None`. -/
theorem C9_sp_name_validation_witness :
    get_sp_definition true (.fetched none) "a;b".data = .raiseValidation ∧
    get_sp_definition true (.fetched none) "[dbo].[GetUser]".data = .ret none := by
  refine ⟨C9_sp_name_validation.1 _ _ (Or.inr (Or.inl (by decide))), ?_⟩
  exact C9_sp_name_validation.2 _ _ (by decide) (Or.inl rfl)
